import Mathlib

/-!
Verification of the fish-identifier client (src/frontend/src/App.jsx).

The repository's only logic lives in the React component `App`: file
validation (`handleImageUpload`), submission and response interpretation
(`handleSubmit`), reset (`handleReset`) and a best-effort health query
(`fetchModelInfo`).  We embed the component state and each handler as a
pure function on that state.  Asynchronous handlers are embedded as
atomic state transformers taking the eventual outcome of their awaited
operation (file-read result, parsed HTTP response) as an argument.

Numbers crossing the JSON boundary are IEEE-754 binary64 values; we model
each one by its exact rational value, and `Number.prototype.toFixed` by
its ECMAScript definition on that rational.
-/

namespace FishApp

/-- One classification result, as in the `predictions` array of the
service response: `{class_id, species, confidence}`.  `confidence` is the
exact rational value of the binary64 number received. -/
structure Prediction where
  classId : Int
  species : String
  confidence : ℚ
  deriving DecidableEq, Repr

/-- The `top_prediction` field of a success response; `handleSubmit` reads
only its `species` and `confidence`. -/
structure TopPrediction where
  species : String
  confidence : ℚ
  deriving DecidableEq, Repr

/-- A candidate file as the validator sees it: declared MIME type
(`file.type`), byte size (`file.size`), and the data-URL the
`FileReader.readAsDataURL` call would produce for it (`dataUrl`). -/
structure FileDesc where
  type : String
  size : Nat
  dataUrl : String
  deriving DecidableEq, Repr

/-- The component state: the `useState` cells of `App` that the core
logic touches (`isDragging` and the file-input ref are presentation
only and omitted).  `modelInfo` is the opaque `/health` payload. -/
structure AppState where
  image : Option FileDesc
  preview : Option String
  predictions : List Prediction
  loading : Bool
  error : Option String
  success : Option String
  modelInfo : Option String
  deriving DecidableEq, Repr

/-- Initial state: every cell starts at `null` / `[]` / `false`. -/
def initialState : AppState :=
  { image := none, preview := none, predictions := [], loading := false,
    error := none, success := none, modelInfo := none }

/-- The `validTypes` array of `handleImageUpload`. -/
def validTypes : List String :=
  ["image/jpeg", "image/png", "image/jpg", "image/bmp", "image/gif", "image/webp"]

/-- Error message set when the declared MIME type is not accepted. -/
def invalidTypeMsg : String := "Please upload a valid image file (JPEG, PNG, WebP, GIF)"

/-- Error message set when the file exceeds the size bound. -/
def tooLargeMsg : String := "File size too large. Maximum size is 16MB"

/-- `handleImageUpload(file)` for a non-null `file`: reject on MIME type,
then on size; otherwise clear `error`, clear `predictions`, and (once the
`FileReader` load completes) store preview and file.  The read callback
is folded into the same atomic step. -/
def handleImageUpload (s : AppState) (f : FileDesc) : AppState :=
  if ¬ validTypes.contains f.type then
    { s with error := some invalidTypeMsg }
  else if f.size > 16 * 1024 * 1024 then
    { s with error := some tooLargeMsg }
  else
    { s with error := none, predictions := [],
             preview := some f.dataUrl, image := some f }

/-- JavaScript `x || d` for a possibly-absent string `x`: the default is
taken when `x` is absent (`undefined`) or empty (falsy). -/
def jsOr (x : Option String) (d : String) : String :=
  match x with
  | some e => if e = "" then d else e
  | none => d

/-- JavaScript `m || d` for a string `m` (used for `err.message`). -/
def jsOrStr (m d : String) : String := if m = "" then d else m

/-- Two-digit decimal rendering of `k < 100`, zero-padded. -/
def twoDigits (k : Nat) : String :=
  if k < 10 then "0" ++ toString k else toString k

/-- `Number.prototype.toFixed(2)` on the exact rational value of a
binary64 number (ECMAScript 2023, 21.1.3.3, for magnitudes below 10^21):
choose the integer n for which n / 100 is closest to the magnitude,
ties resolved toward the larger n, and render n with two decimals,
with a leading minus sign for negative inputs. -/
def jsToFixed2 (q : ℚ) : String :=
  if q < 0 then
    let n : Int := ⌊-q * 100 + 1 / 2⌋
    "-" ++ toString (n / 100) ++ "." ++ twoDigits (n % 100).toNat
  else
    let n : Int := ⌊q * 100 + 1 / 2⌋
    toString (n / 100) ++ "." ++ twoDigits (n % 100).toNat

/-- The success banner built in `handleSubmit`:
`Identified as (species) with (confidence.toFixed(2))% confidence`. -/
def summaryMessage (tp : TopPrediction) : String :=
  "Identified as " ++ tp.species ++ " with " ++ jsToFixed2 tp.confidence ++ "% confidence"

/-- Message of the `TypeError` thrown by
`data.top_prediction.species` when `top_prediction` is absent (V8
wording; only its non-emptiness matters to the state machine). -/
def undefinedSpeciesErrMsg : String :=
  "Cannot read properties of undefined (reading 'species')"

/-- A parsed `/predict` HTTP response: `ok` is `response.ok`; the rest is
the parsed JSON body — `success`, `predictions` (absent modelled as the
value the renderer would see, `[]`, only for responses that carry one),
`top_prediction` (absent when the field is missing) and `error`. -/
structure PredictResponse where
  ok : Bool
  success : Bool
  predictions : List Prediction
  topPrediction : Option TopPrediction
  error : Option String
  deriving DecidableEq, Repr

/-- Outcome of the awaited part of `handleSubmit`: either a parsed
response, or a thrown transport or file-read failure carrying
`err.message` (empty string when the thrown value has no message). -/
def SubmitOutcome := Except String PredictResponse

/-- `handleSubmit`: guard on a selected image; then
`setLoading(true); setError(null); setSuccess(null)`; then interpret the
outcome — non-`ok` responses and `success:false` bodies throw
`data.error || "Prediction failed"`; a `success:true` body first stores
`data.predictions`, then builds the banner from `data.top_prediction`,
which throws a `TypeError` when that field is absent; every throw is
caught and stored via `err.message || "An error occurred during
prediction"`; finally `setLoading(false)`. -/
def handleSubmit (s : AppState) (r : SubmitOutcome) : AppState :=
  if s.image.isNone then
    { s with error := some "Please select an image first" }
  else
    let s0 : AppState := { s with loading := true, error := none, success := none }
    let s1 : AppState :=
      match r with
      | .error msg =>
          { s0 with error := some (jsOrStr msg "An error occurred during prediction") }
      | .ok d =>
          if ¬ d.ok then
            { s0 with error := some (jsOr d.error "Prediction failed") }
          else if d.success then
            match d.topPrediction with
            | some tp =>
                { s0 with predictions := d.predictions,
                          success := some (summaryMessage tp) }
            | none =>
                { s0 with predictions := d.predictions,
                          error := some undefinedSpeciesErrMsg }
          else
            { s0 with error := some (jsOr d.error "Prediction failed") }
    { s1 with loading := false }

/-- `handleReset`: null out file, preview, predictions, error, success
(the file-input ref and `modelInfo` are untouched). -/
def handleReset (s : AppState) : AppState :=
  { s with image := none, preview := none, predictions := [],
           error := none, success := none }

/-- `fetchModelInfo`: on a successful `/health` round trip store the
payload in `modelInfo`; on any failure only `console.error` runs. -/
def fetchModelInfo (s : AppState) (resp : Option String) : AppState :=
  match resp with
  | some d => { s with modelInfo := some d }
  | none => s

/-- The spec's `status` vocabulary for a Submission. -/
inductive Status where
  | Empty
  | Validating
  | Ready
  | Submitting
  | Succeeded
  | Failed
  deriving DecidableEq, Repr

/-- The status the spec ascribes to a component state, read off the
observable cells: spec section 3 stipulates `errorMessage` is present
exactly in `Failed`; `loading` renders the `Submitting` spinner; a stored
success summary marks `Succeeded`; an accepted file with none of the
above marks `Ready`.  (`Validating` is transient inside
`handleImageUpload` and never observable at rest.) -/
def statusOf (s : AppState) : Status :=
  if s.error.isSome then .Failed
  else if s.loading then .Submitting
  else if s.success.isSome then .Succeeded
  else if s.image.isSome then .Ready
  else .Empty

/-- The discrete events driving the component. -/
inductive Event where
  | upload (f : FileDesc)
  | submit (r : SubmitOutcome)
  | reset
  | health (d : Option String)

/-- One event-handler step. -/
def step (s : AppState) : Event → AppState
  | .upload f => handleImageUpload s f
  | .submit r => handleSubmit s r
  | .reset => handleReset s
  | .health d => fetchModelInfo s d

/-- States reachable from the initial state by event-handler steps. -/
inductive Reachable : AppState → Prop where
  | init : Reachable initialState
  | next {s : AppState} (e : Event) : Reachable s → Reachable (step s e)

/-- Reasons of the spec's Image Validator. -/
inductive RejectReason where
  | invalidFileType
  | fileTooLarge
  deriving DecidableEq, Repr

/-- Verdict of the spec's Image Validator. -/
inductive ValidationResult where
  | Accepted
  | Rejected (reason : RejectReason)
  deriving DecidableEq, Repr

/-- Modelled from the spec (section 4.2, Image Validator): rules applied
in order with short-circuit — MIME type must be one of the six accepted
types, else reject with the invalid-file-type reason; then byte size must
be at most 16 * 1024 * 1024, else reject with the file-too-large
reason; otherwise accept. -/
def specValidator (mime : String) (size : Nat) : ValidationResult :=
  if ¬ validTypes.contains mime then .Rejected .invalidFileType
  else if size > 16 * 1024 * 1024 then .Rejected .fileTooLarge
  else .Accepted

/-- The user-facing message `handleImageUpload` shows for each rejection
reason. -/
def rejectionMessage : RejectReason → String
  | .invalidFileType => invalidTypeMsg
  | .fileTooLarge => tooLargeMsg

/-- Non-increasing confidence along a prediction list. -/
def sortedDescBool : List Prediction → Bool
  | [] => true
  | [_] => true
  | a :: b :: rest => decide (b.confidence ≤ a.confidence) && sortedDescBool (b :: rest)

/-- The exact rational value of the binary64 number written `97.345`
(the scenario's top confidence after JSON parsing): the nearest
representable is 6850045401974702 * 2 ^ (-46), slightly below
97.345. -/
def conf97345 : ℚ := 6850045401974702 / 70368744177664

/-- The exact rational value of the binary64 number written `2.655`
(the scenario's second confidence): 5978528505334333 * 2 ^ (-51). -/
def conf2655 : ℚ := 5978528505334333 / 2251799813685248

/-- The scenario file: `fish.png`, `image/png`, 2 MB. -/
def fishPng : FileDesc :=
  { type := "image/png", size := 2 * 1024 * 1024, dataUrl := "data:image/png;base64,QUJD" }

/-- A file whose declared MIME type is not an accepted image type. -/
def badTypeFile : FileDesc :=
  { type := "text/plain", size := 10, dataUrl := "data:text/plain;base64,eA" }

/-- State after selecting `fishPng` from the initial state: the spec's
`Ready`. -/
def readyState : AppState := handleImageUpload initialState fishPng

/-- The scenario response: `success:true` with Salmon 97.345 over
Trout 2.655 and a matching `top_prediction`. -/
def scenarioResponse : PredictResponse :=
  { ok := true, success := true,
    predictions := [{ classId := 1, species := "Salmon", confidence := conf97345 },
                    { classId := 2, species := "Trout", confidence := conf2655 }],
    topPrediction := some { species := "Salmon", confidence := conf97345 },
    error := none }

/-- State after the scenario submission succeeds. -/
def afterSuccessState : AppState := handleSubmit readyState (.ok scenarioResponse)

/-- A well-formed success response whose prediction list is NOT in
descending confidence order (10 before 90). -/
def unsortedResponse : PredictResponse :=
  { ok := true, success := true,
    predictions := [{ classId := 1, species := "A", confidence := 10 },
                    { classId := 2, species := "B", confidence := 90 }],
    topPrediction := some { species := "A", confidence := 10 },
    error := none }

/-- The test-property response with a `success:true` body and an empty
prediction list (and hence no `top_prediction` field). -/
def emptyPredictionsResponse : PredictResponse :=
  { ok := true, success := true, predictions := [], topPrediction := none, error := none }

/-- A `success:true` body carrying predictions but no `top_prediction`
field. -/
def partialFailureResponse : PredictResponse :=
  { ok := true, success := true,
    predictions := [{ classId := 1, species := "A", confidence := 10 }],
    topPrediction := none, error := none }

/-- The application-level failure response of the spec's test property. -/
def blurryResponse : PredictResponse :=
  { ok := true, success := false, predictions := [], topPrediction := none,
    error := some "too blurry" }

/-- Submission outcomes in which `handleSubmit` never reaches the
prediction-storing statement: a thrown transport or read failure, a
non-`ok` HTTP response, or a `success:false` body. -/
def failsWithoutStoring : SubmitOutcome → Prop
  | .error _ => True
  | .ok d => d.ok = false ∨ d.success = false

/-- State update of the accepting branch of `handleImageUpload`. -/
def acceptFile (s : AppState) (f : FileDesc) : AppState :=
  { s with error := none, predictions := [], preview := some f.dataUrl, image := some f }

/-- `handleImageUpload` case-analysed by the spec validator's verdict
(shared shape lemma). -/
theorem handleImageUpload_by_verdict (s : AppState) (f : FileDesc) :
    handleImageUpload s f =
      match specValidator f.type f.size with
      | .Rejected r => { s with error := some (rejectionMessage r) }
      | .Accepted => acceptFile s f := by
  unfold handleImageUpload specValidator acceptFile
  by_cases h1 : f.type ∈ validTypes
  · by_cases h2 : f.size > 16 * 1024 * 1024 <;>
      simp [h1, h2, rejectionMessage]
  · simp [h1, rejectionMessage]

/-- C2: for every candidate file the validator of `handleImageUpload`
applies its rules in order with short-circuit: a MIME type outside the
six accepted image types is rejected with the invalid-file-type message
regardless of size; an accepted type with byte size above
16 * 1024 * 1024 is rejected with the file-too-large message; otherwise
the file is accepted (error cleared, predictions cleared, preview and
file stored).  Stated as agreement with the spec's rule-ordered
validator `specValidator`. -/
theorem c2_validator_rules_in_order (s : AppState) (f : FileDesc) :
    handleImageUpload s f =
      match specValidator f.type f.size with
      | .Rejected r => { s with error := some (rejectionMessage r) }
      | .Accepted => acceptFile s f :=
  handleImageUpload_by_verdict s f

/-- C3: for a submission with a selected image, the response
`{success: true, predictions: []}` drives the state to `Failed`
(building the summary dereferences the absent `top_prediction` and the
thrown error is caught), never to `Succeeded`: no success banner is
stored, and the error cell holds the caught message. -/
theorem c3_empty_predictions_fail (s : AppState) (h : s.image.isSome = true) :
    statusOf (handleSubmit s (.ok emptyPredictionsResponse)) = .Failed ∧
    (handleSubmit s (.ok emptyPredictionsResponse)).success = none ∧
    (handleSubmit s (.ok emptyPredictionsResponse)).error = some undefinedSpeciesErrMsg := by
  obtain ⟨f, hf⟩ := Option.isSome_iff_exists.mp h
  simp [handleSubmit, statusOf, hf, emptyPredictionsResponse]

/-- Witness for C3 at the concrete `Ready` state. -/
theorem c3_empty_predictions_fail_witness :
    statusOf (handleSubmit readyState (.ok emptyPredictionsResponse)) = .Failed ∧
    (handleSubmit readyState (.ok emptyPredictionsResponse)).success = none ∧
    (handleSubmit readyState (.ok emptyPredictionsResponse)).error =
      some undefinedSpeciesErrMsg :=
  c3_empty_predictions_fail readyState (by decide)

/-- C7: for a submission with a selected image, the application-level
failure response `{success: false, error: "too blurry"}` drives the
state to `Failed` with the server-supplied message surfaced verbatim. -/
theorem c7_server_error_verbatim (s : AppState) (h : s.image.isSome = true) :
    statusOf (handleSubmit s (.ok blurryResponse)) = .Failed ∧
    (handleSubmit s (.ok blurryResponse)).error = some "too blurry" := by
  obtain ⟨f, hf⟩ := Option.isSome_iff_exists.mp h
  simp [handleSubmit, statusOf, hf, blurryResponse, jsOr]

/-- Witness for C7 at the concrete `Ready` state. -/
theorem c7_server_error_verbatim_witness :
    statusOf (handleSubmit readyState (.ok blurryResponse)) = .Failed ∧
    (handleSubmit readyState (.ok blurryResponse)).error = some "too blurry" :=
  c7_server_error_verbatim readyState (by decide)

/-- C9: the service-info query never affects the submission state
machine: whatever the outcome of the `/health` round trip (success or
failure), status, error message, preview, predictions, success summary,
loading flag and stored file are all unchanged. -/
theorem c9_health_frame (s : AppState) (r : Option String) :
    (fetchModelInfo s r).error = s.error ∧
    (fetchModelInfo s r).preview = s.preview ∧
    (fetchModelInfo s r).predictions = s.predictions ∧
    (fetchModelInfo s r).success = s.success ∧
    (fetchModelInfo s r).loading = s.loading ∧
    (fetchModelInfo s r).image = s.image ∧
    statusOf (fetchModelInfo s r) = statusOf s := by
  cases r <;> simp [fetchModelInfo, statusOf]

/-- C10: a file selection that fails validation changes nothing but the
error message: the previously accepted file, its preview, displayed
predictions and success summary are preserved, and a previously
accepted file remains submittable (the submit guard still sees it). -/
theorem c10_rejected_upload_frame (s : AppState) (f : FileDesc) (r : RejectReason)
    (h : specValidator f.type f.size = .Rejected r) :
    (handleImageUpload s f).image = s.image ∧
    (handleImageUpload s f).preview = s.preview ∧
    (handleImageUpload s f).predictions = s.predictions ∧
    (handleImageUpload s f).success = s.success ∧
    (handleImageUpload s f).error = some (rejectionMessage r) ∧
    (s.image.isSome = true → (handleImageUpload s f).image.isSome = true) := by
  have he := handleImageUpload_by_verdict s f
  rw [h] at he
  rw [he]
  simp

/-- C1 is refuted by an accepted success response whose list is not in
descending order: the interpreter neither re-confirms nor imposes
descending order — `setPredictions(data.predictions)` exposes the
service list verbatim, so the submission ends `Succeeded` while the
displayed list violates c1 ≥ c2. -/
theorem c1_unsorted_accepted_cex :
    statusOf (handleSubmit readyState (.ok unsortedResponse)) = .Succeeded ∧
    sortedDescBool (handleSubmit readyState (.ok unsortedResponse)).predictions = false := by
  exact ⟨by decide, by decide⟩

/-- C1 amended: for every response accepted as success, the prediction
list exposed to the presentation layer is exactly the service list in
its original order; consequently it is in non-increasing confidence
order exactly when the service returned it that way, and an unsorted
service list is displayed unsorted. -/
theorem c1_predictions_exposed_verbatim (s : AppState) (d : PredictResponse)
    (tp : TopPrediction) (himg : s.image.isSome = true) (hok : d.ok = true)
    (hs : d.success = true) (htp : d.topPrediction = some tp) :
    (handleSubmit s (.ok d)).predictions = d.predictions ∧
    (sortedDescBool d.predictions = true →
      sortedDescBool (handleSubmit s (.ok d)).predictions = true) := by
  obtain ⟨f, hf⟩ := Option.isSome_iff_exists.mp himg
  simp [handleSubmit, hf, hok, hs, htp]

/-- Witness for the amended C1 at the scenario submission. -/
theorem c1_predictions_exposed_verbatim_witness :
    (handleSubmit readyState (.ok scenarioResponse)).predictions =
      scenarioResponse.predictions ∧
    (sortedDescBool scenarioResponse.predictions = true →
      sortedDescBool (handleSubmit readyState (.ok scenarioResponse)).predictions = true) :=
  c1_predictions_exposed_verbatim readyState scenarioResponse
    { species := "Salmon", confidence := conf97345 } (by decide) rfl rfl rfl

/-- C4 is refuted by a `success:true` response that carries predictions
but no `top_prediction`: `setPredictions` has already stored the list
when building the banner throws, so the attempt ends `Failed` while the
failing response predictions are stored (and rendered, since the
results card shows any non-empty list). -/
theorem c4_failed_stores_predictions_cex :
    statusOf (handleSubmit readyState (.ok partialFailureResponse)) = .Failed ∧
    (handleSubmit readyState (.ok partialFailureResponse)).predictions =
      partialFailureResponse.predictions ∧
    partialFailureResponse.predictions ≠ [] := by
  exact ⟨by decide, by decide, by decide⟩

/-- C4 amended: in every failure case in which `handleSubmit` never
reaches the prediction-storing statement — a thrown transport or read
failure, a non-ok HTTP response, or a `success:false` body — the attempt
ends `Failed` with the prediction cell unchanged; only a `success:true`
response lacking `top_prediction` can leave that response predictions
stored alongside the error. -/
theorem c4_failed_keeps_prior_predictions (s : AppState) (r : SubmitOutcome)
    (himg : s.image.isSome = true) (h : failsWithoutStoring r) :
    statusOf (handleSubmit s r) = .Failed ∧
    (handleSubmit s r).predictions = s.predictions := by
  obtain ⟨f, hf⟩ := Option.isSome_iff_exists.mp himg
  cases r with
  | error msg => simp [handleSubmit, statusOf, hf]
  | ok d =>
    simp only [failsWithoutStoring] at h
    rcases h with hok | hsucc
    · simp [handleSubmit, statusOf, hf, hok]
    · by_cases hok2 : d.ok = true <;>
        simp [handleSubmit, statusOf, hf, hok2, hsucc]

/-- Witness for the amended C4 at the blurry-image failure. -/
theorem c4_failed_keeps_prior_predictions_witness :
    statusOf (handleSubmit readyState (.ok blurryResponse)) = .Failed ∧
    (handleSubmit readyState (.ok blurryResponse)).predictions = readyState.predictions :=
  c4_failed_keeps_prior_predictions readyState (.ok blurryResponse) (by decide) (Or.inr rfl)

/-- C5 is refuted by selecting an invalid file while results of a
previous submission are displayed: the clearing statements run only
after both validation checks pass, so on a failed validation the stale
prediction data is kept (only the error message changes). -/
theorem c5_stale_predictions_kept_cex :
    (handleImageUpload afterSuccessState badTypeFile).predictions =
      afterSuccessState.predictions ∧
    (handleImageUpload afterSuccessState badTypeFile).predictions ≠ [] ∧
    (handleImageUpload afterSuccessState badTypeFile).error = some invalidTypeMsg := by
  exact ⟨rfl, by decide, by decide⟩

/-- C5 amended: previous error and prediction data are cleared exactly
when the newly selected file passes validation; a selection that fails
validation replaces the error message and leaves the prediction data in
place. -/
theorem c5_clear_on_accepted_upload (s : AppState) (f : FileDesc)
    (h : specValidator f.type f.size = .Accepted) :
    (handleImageUpload s f).error = none ∧
    (handleImageUpload s f).predictions = [] := by
  have he := handleImageUpload_by_verdict s f
  rw [h] at he
  rw [he]
  exact ⟨rfl, rfl⟩

/-- Witness for the amended C5: re-selecting the scenario file over a
state holding stale results. -/
theorem c5_clear_on_accepted_upload_witness :
    (handleImageUpload afterSuccessState fishPng).error = none ∧
    (handleImageUpload afterSuccessState fishPng).predictions = [] :=
  c5_clear_on_accepted_upload afterSuccessState fishPng (by decide)

/-- Witness for C10: a wrong-type selection on top of the `Ready`
state. -/
theorem c10_rejected_upload_frame_witness :
    (handleImageUpload readyState badTypeFile).image = readyState.image ∧
    (handleImageUpload readyState badTypeFile).preview = readyState.preview ∧
    (handleImageUpload readyState badTypeFile).predictions = readyState.predictions ∧
    (handleImageUpload readyState badTypeFile).success = readyState.success ∧
    (handleImageUpload readyState badTypeFile).error =
      some (rejectionMessage .invalidFileType) ∧
    (readyState.image.isSome = true →
      (handleImageUpload readyState badTypeFile).image.isSome = true) :=
  c10_rejected_upload_frame readyState badTypeFile .invalidFileType (by decide)

/-- The invariant the handlers actually maintain: preview and file are
set and cleared together, a stored success banner implies a stored
file, and no handler leaves the loading flag set. -/
def coreInvariant (s : AppState) : Prop :=
  s.preview.isSome = s.image.isSome ∧
  (s.success.isSome = true → s.image.isSome = true) ∧
  s.loading = false

theorem coreInvariant_init : coreInvariant initialState := by
  refine ⟨rfl, ?_, rfl⟩
  intro h
  simp [initialState] at h

theorem coreInvariant_step (s : AppState) (e : Event) (h : coreInvariant s) :
    coreInvariant (step s e) := by
  obtain ⟨h1, h2, h3⟩ := h
  cases e with
  | upload f =>
    have he := handleImageUpload_by_verdict s f
    show coreInvariant (handleImageUpload s f)
    rw [he]
    cases hv : specValidator f.type f.size with
    | Accepted => simp [acceptFile, coreInvariant, h3]
    | Rejected r => exact ⟨h1, h2, h3⟩
  | submit r =>
    show coreInvariant (handleSubmit s r)
    unfold handleSubmit
    by_cases hi : s.image.isNone = true
    · simp only [hi, if_true]
      exact ⟨h1, h2, h3⟩
    · have himg : s.image.isSome = true := by
        cases hx : s.image with
        | none => rw [hx] at hi; simp at hi
        | some v => rfl
      simp only [hi, if_false]
      cases r with
      | error msg => exact ⟨h1, fun hx => himg, rfl⟩
      | ok d =>
        by_cases hok : d.ok = true
        · by_cases hsu : d.success = true
          · cases htp : d.topPrediction with
            | none => simp [hok, hsu, htp, coreInvariant, h1, himg]
            | some tp => simp [hok, hsu, htp, coreInvariant, h1, himg]
          · simp [hok, hsu, coreInvariant, h1, himg]
        · simp [hok, coreInvariant, h1, himg]
  | reset =>
    show coreInvariant (handleReset s)
    exact ⟨rfl, by intro hx; simp [handleReset] at hx, h3⟩
  | health d =>
    show coreInvariant (fetchModelInfo s d)
    cases d with
    | none => exact ⟨h1, h2, h3⟩
    | some v => exact ⟨h1, h2, h3⟩

theorem reachable_coreInvariant (s : AppState) (h : Reachable s) : coreInvariant s := by
  induction h with
  | init => exact coreInvariant_init
  | next e _ ih => exact coreInvariant_step _ e ih

/-- C6 is refuted by the validation-failure path from the empty state:
the resulting state is `Failed` (an error message is shown) yet its
preview is null, because a rejected selection never produces a
preview.  The state is reachable in one step. -/
theorem c6_failed_without_preview_cex :
    Reachable (handleImageUpload initialState badTypeFile) ∧
    statusOf (handleImageUpload initialState badTypeFile) = .Failed ∧
    (handleImageUpload initialState badTypeFile).preview = none := by
  refine ⟨?_, by decide, by decide⟩
  exact Reachable.next (.upload badTypeFile) Reachable.init

/-- C6 amended: in every reachable state, `previewData` is non-null iff
a source file is held; in particular `Ready`, `Submitting` and
`Succeeded` states have a non-null preview, and after reset the preview
is null.  A `Failed` state, however, has a non-null preview only when a
previously accepted file is still held — the validation-failure path
reaches `Failed` with a null preview. -/
theorem c6_preview_iff_file_held (s : AppState) (h : Reachable s) :
    s.preview.isSome = s.image.isSome ∧
    ((statusOf s = .Ready ∨ statusOf s = .Submitting ∨ statusOf s = .Succeeded) →
      s.preview.isSome = true) ∧
    (handleReset s).preview = none := by
  obtain ⟨h1, h2, h3⟩ := reachable_coreInvariant s h
  refine ⟨h1, ?_, rfl⟩
  intro hst
  unfold statusOf at hst
  split_ifs at hst with he hl hsu hi
  · simp at hst
  · rw [h3] at hl
    simp at hl
  · rw [h1]
    exact h2 hsu
  · rw [h1]
    exact hi
  · simp at hst

/-- Witness for the amended C6 at the initial state. -/
theorem c6_preview_iff_file_held_witness :
    initialState.preview.isSome = initialState.image.isSome ∧
    ((statusOf initialState = .Ready ∨ statusOf initialState = .Submitting ∨
        statusOf initialState = .Succeeded) →
      initialState.preview.isSome = true) ∧
    (handleReset initialState).preview = none :=
  c6_preview_iff_file_held initialState Reachable.init

/-- `conf97345` is the binary64 value of the source text `97.345`: it
is an integer multiple of 2 ^ (-46) (one ulp at this magnitude,
since 97.345 lies in [2 ^ 6, 2 ^ 7) and the significand carries 52
fractional bits) and sits within half an ulp of 97345 / 1000, which
characterises the nearest representable uniquely. -/
theorem conf97345_nearest_double :
    conf97345 = 6850045401974702 / 2 ^ 46 ∧
    |conf97345 - 97345 / 1000| < 1 / 2 ^ 47 := by
  constructor
  · norm_num [conf97345]
  · rw [abs_lt]
    constructor <;> norm_num [conf97345]

theorem conf97345_not_neg : ¬ conf97345 < 0 := by
  norm_num [conf97345]

/-- The binary64 value of `97.345` lies strictly below the midpoint
9734.5 / 100, so the ECMAScript rounding of `toFixed(2)` picks 9734. -/
theorem conf97345_floor : ⌊conf97345 * 100 + 1 / 2⌋ = (9734 : ℤ) := by
  rw [Int.floor_eq_iff]
  constructor <;> norm_num [conf97345]

theorem jsToFixed2_conf97345 : jsToFixed2 conf97345 = "97.34" := by
  unfold jsToFixed2
  rw [if_neg conf97345_not_neg]
  simp only [conf97345_floor]
  decide

/-- C8 is refuted at the scenario response itself: the top confidence
written `97.345` denotes the binary64 value 97.34499999999999886…,
whose `toFixed(2)` is "97.34", so the stored summary reads
"Identified as Salmon with 97.34% confidence" and differs from the
claimed string with "97.35". -/
theorem c8_scenario_summary_cex :
    (handleSubmit readyState (.ok scenarioResponse)).success =
      some "Identified as Salmon with 97.34% confidence" ∧
    (handleSubmit readyState (.ok scenarioResponse)).success ≠
      some "Identified as Salmon with 97.35% confidence" := by
  have h : (handleSubmit readyState (.ok scenarioResponse)).success =
      some (summaryMessage { species := "Salmon", confidence := conf97345 }) := rfl
  have h2 : summaryMessage { species := "Salmon", confidence := conf97345 } =
      "Identified as Salmon with 97.34% confidence" := by
    unfold summaryMessage
    rw [jsToFixed2_conf97345]
    rfl
  rw [h, h2]
  exact ⟨rfl, by decide⟩

/-- C8 amended: on every well-formed success response the stored
summary equals "Identified as (species) with (confidence)% confidence"
with the confidence of `top_prediction` formatted by `toFixed(2)`; for
the scenario response, whose top confidence is the binary64 value of
`97.345` (slightly below 97.345), that format yields "97.34", so the
summary is "Identified as Salmon with 97.34% confidence". -/
theorem c8_summary_format (s : AppState) (d : PredictResponse)
    (tp : TopPrediction) (himg : s.image.isSome = true) (hok : d.ok = true)
    (hs : d.success = true) (htp : d.topPrediction = some tp) :
    (handleSubmit s (.ok d)).success =
      some ("Identified as " ++ tp.species ++ " with " ++
        jsToFixed2 tp.confidence ++ "% confidence") ∧
    jsToFixed2 conf97345 = "97.34" := by
  obtain ⟨f, hf⟩ := Option.isSome_iff_exists.mp himg
  refine ⟨?_, jsToFixed2_conf97345⟩
  simp [handleSubmit, hf, hok, hs, htp, summaryMessage]

/-- Witness for the amended C8 at the scenario submission. -/
theorem c8_summary_format_witness :
    (handleSubmit readyState (.ok scenarioResponse)).success =
      some ("Identified as " ++ "Salmon" ++ " with " ++
        jsToFixed2 conf97345 ++ "% confidence") ∧
    jsToFixed2 conf97345 = "97.34" :=
  c8_summary_format readyState scenarioResponse
    { species := "Salmon", confidence := conf97345 } (by decide) rfl rfl rfl

end FishApp
